import Mathlib

/-!
Verification of the Ubuntu Pro reconciliation module
(`plugins/modules/pro.py`).

The module drives the external `pro` CLI: it reads a status snapshot,
normalizes it into an attachment flag and a set of enabled services,
diffs that against the desired state, and executes the corrective
actions (attach/detach/enable/disable), short-circuiting in check mode.

The embedding below mirrors the Python source:
* JSON values are modelled by `JVal` (numbers as integers; the claims
  only involve integer truthiness).  Python truthiness is `truthy`.
* `json.loads` is an external collaborator (the standard library); it is
  modelled as an abstract function `String → Option JVal` where `none`
  stands for a `ValueError`.
* `module.run_command` is modelled as a `Runner`
  (argument vector ↦ exit code, stdout, stderr).
* `mainRun` embeds `main`; it additionally returns the trace of argument
  vectors passed to the Runner, in order, so that statements about
  "which external invocations occurred" can be made.  `fail_json` is
  modelled as an `Except.error` carrying the failure payload.
-/

namespace ProModule

/-- JSON values as produced by parsing the CLI's output.  Numbers are
modelled as integers (the claims never involve fractional values). -/
inductive JVal where
  | null
  | bool (b : Bool)
  | str (s : String)
  | num (n : Int)
  | arr (xs : List JVal)
  | obj (fields : List (String × JVal))

/-- Python truthiness (`bool(v)`) on JSON values: `None`, `False`, `0`,
`""`, `[]` and `{}` are falsy, everything else truthy. -/
def truthy : JVal → Bool
  | .null => false
  | .bool b => b
  | .str s => s ≠ ""
  | .num n => n ≠ 0
  | .arr xs => ¬xs.isEmpty
  | .obj fs => ¬fs.isEmpty

/-- `d.get(k)` on a Python dict modelled as an association list
(keys are unique in a dict, so the first match is the value). -/
def dictGet (d : List (String × JVal)) (k : String) : Option JVal :=
  (d.find? (fun kv => kv.1 == k)).map (fun kv => kv.2)

/-- `v = d.get(k); ... isinstance(v, str)`: the value of `k` when it is
present and a string, else `none`. -/
def strField (d : List (String × JVal)) (k : String) : Option String :=
  match dictGet d k with
  | some (.str s) => some s
  | _ => none

/-- The `_ENABLED` tuple: accepted "on" vocabulary for textual
enabled-ness fields. -/
def ENABLED_VALUES : List String := ["enabled", "active", "on"]

/-- Python's `str.lower()`, as a structurally recursive map over the
characters (it agrees with `String.toLower`; the status vocabulary is
ASCII, where Python's and Lean's per-character lowercasing coincide). -/
def lowerStr (s : String) : String := ⟨s.data.map Char.toLower⟩

/-- `value.lower() in _ENABLED`. -/
def vocab (s : String) : Bool := ENABLED_VALUES.contains (lowerStr s)

/-- `_service_enabled`: extract the enabled flag from a service entry.
If the `enabled` key is present its Python truth-value is used
(`bool(service["enabled"])`); otherwise a textual `status`, then a
textual `state`, is compared case-insensitively against the vocabulary;
otherwise the entry counts as disabled. -/
def service_enabled (svc : List (String × JVal)) : Bool :=
  match dictGet svc "enabled" with
  | some v => truthy v
  | none =>
    match strField svc "status" with
    | some s => vocab s
    | none =>
      match strField svc "state" with
      | some s => vocab s
      | none => false

/-- The `services` list of a status payload.  `status.get("services", [])`
defaults to `[]` when the key is absent; the Python source's type
annotations guarantee a list of dicts there, so other shapes (which
would raise at runtime, outside every claim) are modelled as `[]`. -/
def servicesOf : Option JVal → List JVal
  | some (.obj fs) =>
    match dictGet fs "services" with
    | some (.arr xs) => xs
    | _ => []
  | _ => []

/-- `_collect_enabled_services`: the names of the enabled services of a
status payload.  Entries whose `name` is falsy are skipped.  The Python
function returns a `set`; it is modelled as a duplicate-free list whose
membership is the set's.  A non-string truthy `name` would be added to
the Python set but can never compare equal to the (string) service
names of the desired lists, so only string names are collected. -/
def collect_enabled_services (status : Option JVal) : List String :=
  (servicesOf status).foldl
    (fun acc v =>
      match v with
      | .obj svc =>
        match dictGet svc "name" with
        | some (.str s) =>
          if s ≠ "" ∧ service_enabled svc ∧ ¬acc.contains s then acc ++ [s] else acc
        | _ => acc
      | _ => acc)
    []

/-- `_status_attached`: `bool(status.get("attached"))` when the payload
is a dict containing the key, else `False`. -/
def status_attached (status : Option JVal) : Bool :=
  match status with
  | some (.obj fs) =>
    match dictGet fs "attached" with
    | some v => truthy v
    | none => false
  | _ => false

/-- The plan computed by `main` (lines 344-351): attach/detach needed
flags and the enable/disable diffs. -/
structure ActionPlan where
  attach_needed : Bool
  detach_needed : Bool
  to_enable : List String
  to_disable : List String

/-- The plan computation of `main`:
`attach_needed = (state == "attached" or enabled or disabled) and not attached`,
`detach_needed = state == "detached" and attached`,
`to_enable  = [svc for svc in enabled if svc not in current_enabled]`,
`to_disable = [svc for svc in disabled if svc in current_enabled]`. -/
def computePlan (state : Option String) (enabled disabled : List String)
    (status : Option JVal) : ActionPlan :=
  let attached := status_attached status
  let current_enabled := collect_enabled_services status
  { attach_needed :=
      ((state == some "attached") || !enabled.isEmpty || !disabled.isEmpty) && !attached
    detach_needed := (state == some "detached") && attached
    to_enable := enabled.filter (fun svc => !current_enabled.contains svc)
    to_disable := disabled.filter (fun svc => current_enabled.contains svc) }

/-- The enabled-ness normalization as the specification words it
("explicit boolean field first; else textual field ... else disabled"):
the `enabled` value is used only when it is a boolean; any other shape
of the `enabled` field falls through to the textual fields.  Stated for
comparison with `service_enabled`, which embeds the source. -/
def service_enabled_claim (svc : List (String × JVal)) : Bool :=
  match dictGet svc "enabled" with
  | some (.bool b) => b
  | _ =>
    match strField svc "status" with
    | some s => vocab s
    | none =>
      match strField svc "state" with
      | some s => vocab s
      | none => false

/-- The enabled-ness normalization as amended: when the `enabled` key is
present, its generic truth-value decides, whatever its type; otherwise
a textual `status`, then a textual `state`, is tested against the
vocabulary; otherwise disabled.  Stated in the amended claim's
first-match-wins phrasing for comparison with `service_enabled`. -/
def service_enabled_amended (svc : List (String × JVal)) : Bool :=
  if h : (dictGet svc "enabled").isSome then truthy ((dictGet svc "enabled").get h)
  else if hs : (strField svc "status").isSome then vocab ((strField svc "status").get hs)
  else if ht : (strField svc "state").isSome then vocab ((strField svc "state").get ht)
  else false

/-- The module's caller-supplied parameters after Ansible's argument
parsing: `state`, `token` (both optional strings), and the `enabled` /
`disabled` lists (`module.params.get(...) or []` turns `None` into `[]`,
so they are plain lists here). -/
structure Params where
  state : Option String
  token : Option String
  enabled : List String
  disabled : List String

/-- Python truthiness of the optional `token` string: `None` and the
empty string are falsy. -/
def tokenTruthy : Option String → Bool
  | some s => s ≠ ""
  | none => false

/-- The Command Runner collaborator (`module.run_command`):
argument vector ↦ (exit code, stdout, stderr). -/
abbrev Runner : Type := List String → Int × String × String

/-- What `_execute` returns on success: the parsed JSON (absent when
stdout was empty), plus the raw stdout and stderr. -/
structure ExecOut where
  parsed : Option JVal
  stdout : String
  stderr : String

/-- The two user-visible failure modes of the module: a validation
`fail_json(msg=...)`, or an execution failure
`fail_json(msg="command failed", rc=..., stdout=..., stderr=..., cmd=args)`. -/
inductive ProFailure where
  | validation (msg : String)
  | execFail (rc : Int) (stdout stderr : String) (cmd : List String)

/-- The output-parsing half of `_execute` on a successful invocation:
empty stdout parses to an absent result; otherwise `json.loads` is
attempted (`parse` models it; `none` is a `ValueError`) and a failed
parse degrades to the wrapper `{"raw": out}` instead of failing. -/
def parseStdout (parse : String → Option JVal) (out : String) : Option JVal :=
  if out = "" then none
  else
    match parse out with
    | some j => some j
    | none => some (.obj [("raw", .str out)])

/-- `_execute`: run the command; a non-zero exit code is fatal and
surfaces `(rc, stdout, stderr, cmd)` verbatim; otherwise stdout is
parsed leniently by `parseStdout`. -/
def execute (parse : String → Option JVal) (run : Runner) (args : List String) :
    Except ProFailure ExecOut :=
  let rc := (run args).1
  let out := (run args).2.1
  let err := (run args).2.2
  if rc ≠ 0 then .error (.execFail rc out err args)
  else .ok ⟨parseStdout parse out, out, err⟩

/-- Argument vector of `_get_status`. -/
def statusCmd (pro : String) : List String := [pro, "status", "--wait", "--format=json"]

/-- Argument vector of `_maybe_attach`. -/
def attachCmd (pro tok : String) : List String := [pro, "attach", "--format=json", tok]

/-- Argument vector of `_maybe_detach`. -/
def detachCmd (pro : String) : List String := [pro, "detach", "--assume-yes", "--format=json"]

/-- Argument vector of `_maybe_enable_services`. -/
def enableCmd (pro : String) (to_en : List String) : List String :=
  [pro, "enable", "--assume-yes", "--format=json"] ++ to_en

/-- Argument vector of `_maybe_disable_services`. -/
def disableCmd (pro : String) (to_dis : List String) : List String :=
  [pro, "disable", "--assume-yes", "--format=json"] ++ to_dis

/-- The result dict passed to `exit_json`.  Each optional field models a
dict key that is present only when set (`status` holds the parsed
status, itself possibly absent when the status call printed nothing). -/
structure ResultRecord where
  changed : Bool
  status : Option (Option JVal)
  enabled : Option (List String)
  disabled : Option (List String)
  attach_result : Option (Option JVal)
  detach_result : Option (Option JVal)
  enable_result : Option (Option JVal)
  disable_result : Option (Option JVal)

/-- The result dict right after the initial status read
(`{"changed": False, "status": status}`). -/
def baseResult (status : Option JVal) : ResultRecord :=
  { changed := false, status := some status, enabled := none, disabled := none,
    attach_result := none, detach_result := none,
    enable_result := none, disable_result := none }

/-- The check-mode exit (lines 353-363): `changed` is whether any action
would run; the predicted diffs are reported under `enabled`/`disabled`
when non-empty; no `*_result` field is set. -/
def checkResult (status : Option JVal) (plan : ActionPlan) : ResultRecord :=
  { changed := plan.attach_needed || plan.detach_needed
      || !plan.to_enable.isEmpty || !plan.to_disable.isEmpty
    status := some status
    enabled := if plan.to_enable.isEmpty then none else some plan.to_enable
    disabled := if plan.to_disable.isEmpty then none else some plan.to_disable
    attach_result := none, detach_result := none,
    enable_result := none, disable_result := none }

/-- The tail of `main` after the enable and disable steps (lines
384-388): when anything changed, re-read status so the returned record
reflects the final system state, then `exit_json`. -/
def finalStatus (pro : String) (parse : String → Option JVal) (run : Runner)
    (r : ResultRecord) (changed : Bool) (tr : List (List String)) :
    Except ProFailure ResultRecord × List (List String) :=
  if changed then
    match execute parse run (statusCmd pro) with
    | .error f => (.error f, tr ++ [statusCmd pro])
    | .ok sr => (.ok { r with status := some sr.parsed, changed := true }, tr ++ [statusCmd pro])
  else (.ok { r with changed := false }, tr)

/-- The disable step of `main` (lines 381-382): when `to_disable` is
non-empty, `_maybe_disable_services` runs one disable invocation and
records its parsed output and the acted-on list. -/
def afterEnable (pro : String) (parse : String → Option JVal) (run : Runner)
    (r : ResultRecord) (to_dis : List String) (changed : Bool)
    (tr : List (List String)) :
    Except ProFailure ResultRecord × List (List String) :=
  if to_dis.isEmpty then finalStatus pro parse run r changed tr
  else
    match execute parse run (disableCmd pro to_dis) with
    | .error f => (.error f, tr ++ [disableCmd pro to_dis])
    | .ok dr =>
      finalStatus pro parse run
        { r with disable_result := some dr.parsed, disabled := some to_dis }
        true (tr ++ [disableCmd pro to_dis])

/-- The enable step of `main` (lines 378-379): when `to_enable` is
non-empty, `_maybe_enable_services` runs one enable invocation and
records its parsed output and the acted-on list; then the disable step
and the final status re-read follow. -/
def finishActions (pro : String) (parse : String → Option JVal) (run : Runner)
    (r : ResultRecord) (to_en to_dis : List String) (changed : Bool)
    (tr : List (List String)) :
    Except ProFailure ResultRecord × List (List String) :=
  if to_en.isEmpty then afterEnable pro parse run r to_dis changed tr
  else
    match execute parse run (enableCmd pro to_en) with
    | .error f => (.error f, tr ++ [enableCmd pro to_en])
    | .ok er =>
      afterEnable pro parse run
        { r with enable_result := some er.parsed, enabled := some to_en }
        to_dis true (tr ++ [enableCmd pro to_en])

/-- The mutating path of `main` (lines 365-388): detach, or attach
followed by a fresh status read and a recomputed diff, then the
enable/disable steps and the final status re-read. -/
def executeActions (pro : String) (p : Params) (parse : String → Option JVal)
    (run : Runner) (status : Option JVal) (plan : ActionPlan) :
    Except ProFailure ResultRecord × List (List String) :=
  let tr0 := [statusCmd pro]
  if plan.detach_needed then
    match execute parse run (detachCmd pro) with
    | .error f => (.error f, tr0 ++ [detachCmd pro])
    | .ok dr =>
      finishActions pro parse run
        { baseResult status with detach_result := some dr.parsed }
        plan.to_enable plan.to_disable true (tr0 ++ [detachCmd pro])
  else if plan.attach_needed && tokenTruthy p.token then
    let tok := p.token.getD ""
    match execute parse run (attachCmd pro tok) with
    | .error f => (.error f, tr0 ++ [attachCmd pro tok])
    | .ok ar =>
      match execute parse run (statusCmd pro) with
      | .error f => (.error f, tr0 ++ [attachCmd pro tok, statusCmd pro])
      | .ok st2 =>
        let plan2 := computePlan p.state p.enabled p.disabled st2.parsed
        finishActions pro parse run
          { baseResult st2.parsed with attach_result := some ar.parsed }
          plan2.to_enable plan2.to_disable true
          (tr0 ++ [attachCmd pro tok, statusCmd pro])
  else
    finishActions pro parse run (baseResult status) plan.to_enable plan.to_disable false tr0

/-- `main`, with the trace of Runner invocations made explicit.
In order: the `required_if` validation declared in the argument spec
(`state=attached` requires `token`, enforced by `AnsibleModule` before
anything runs), the detach/enable-disable incompatibility check, the
status read, the plan, the token check, the check-mode exit, and the
mutating path. -/
def mainRun (pro : String) (p : Params) (checkMode : Bool)
    (parse : String → Option JVal) (run : Runner) :
    Except ProFailure ResultRecord × List (List String) :=
  if p.state = some "attached" ∧ p.token = none then
    (.error (.validation "state is attached but all of the following are missing: token"), [])
  else if p.state = some "detached" ∧ (p.enabled ≠ [] ∨ p.disabled ≠ []) then
    (.error (.validation "enabled/disabled cannot be used with state=detached"), [])
  else
    match execute parse run (statusCmd pro) with
    | .error f => (.error f, [statusCmd pro])
    | .ok st =>
      let status := st.parsed
      let plan := computePlan p.state p.enabled p.disabled status
      if plan.attach_needed ∧ tokenTruthy p.token = false then
        (.error (.validation "token is required to attach the system"), [statusCmd pro])
      else if checkMode then
        (.ok (checkResult status plan), [statusCmd pro])
      else
        executeActions pro p parse run status plan

/-! Concrete fixtures used by witnesses and counterexamples. -/

/-- A concrete resolved path for the `pro` binary. -/
def proPath : String := "/usr/bin/pro"

/-- A concrete stand-in for `json.loads`, recognising two status
payloads used by the fixtures. -/
def demoParse : String → Option JVal
  | "UNATTACHED" => some (.obj [("attached", .bool false)])
  | "ATTACHED" => some (.obj [("attached", .bool true)])
  | _ => none

/-- A runner on an unattached system: the status read succeeds, every
other command fails. -/
def runUnattached : Runner := fun args =>
  if args = statusCmd proPath then (0, "UNATTACHED", "") else (1, "", "")

/-- A runner on an attached system with no enabled services, on which
every mutating command fails with exit code 1. -/
def runAttachedFailing : Runner := fun args =>
  if args = statusCmd proPath then (0, "ATTACHED", "") else (1, "boom", "err")

/-- Desired state: enable `esm-apps`, no token supplied. -/
def pNoToken : Params := { state := none, token := none, enabled := ["esm-apps"], disabled := [] }

/-- Desired state: enable `livepatch`, nothing else. -/
def pLivepatch : Params := { state := none, token := some "tok", enabled := ["livepatch"], disabled := [] }

/-- A status payload: attached, with `esm-apps` enabled. -/
def demoStatus : JVal :=
  .obj [("attached", .bool true),
        ("services", .arr [.obj [("name", .str "esm-apps"), ("status", .str "enabled")]])]

/-! Theorems. -/

/-- Claim C1: for every current snapshot (with enabled-service set
`C = collect_enabled_services status`), every desired-enable list `E`
and every desired-disable list `D`, the plan satisfies
`to_enable` = the elements of `E` not in `C`, in `E`'s original order
(it is the order-preserving filter of `E`, a sublist of `E`, with
exactly the membership claimed), and `to_disable` = the elements of `D`
that are in `C`, in `D`'s original order. -/
theorem diff_engine_correct (state : Option String) (E D : List String)
    (status : Option JVal) :
    (computePlan state E D status).to_enable
        = E.filter (fun s => decide (s ∉ collect_enabled_services status))
    ∧ List.Sublist (computePlan state E D status).to_enable E
    ∧ (∀ s, s ∈ (computePlan state E D status).to_enable
        ↔ s ∈ E ∧ s ∉ collect_enabled_services status)
    ∧ (computePlan state E D status).to_disable
        = D.filter (fun s => decide (s ∈ collect_enabled_services status))
    ∧ List.Sublist (computePlan state E D status).to_disable D
    ∧ (∀ s, s ∈ (computePlan state E D status).to_disable
        ↔ s ∈ D ∧ s ∈ collect_enabled_services status) := by
  refine ⟨?_, List.filter_sublist E, ?_, ?_, List.filter_sublist D, ?_⟩
  · simp [computePlan, List.elem_iff]
  · intro s; simp [computePlan, List.mem_filter, List.elem_iff]
  · simp [computePlan, List.elem_iff]
  · intro s; simp [computePlan, List.mem_filter, List.elem_iff]

/-- Witness for C1 at a concrete input: attached snapshot with
`esm-apps` enabled, desired `E = [esm-apps, livepatch]`,
`D = [livepatch]`. -/
theorem diff_engine_correct_witness :
    (computePlan none ["esm-apps", "livepatch"] ["livepatch"] (some demoStatus)).to_enable
        = List.filter (fun s => decide (s ∉ collect_enabled_services (some demoStatus)))
            ["esm-apps", "livepatch"]
    ∧ List.Sublist
        (computePlan none ["esm-apps", "livepatch"] ["livepatch"] (some demoStatus)).to_enable
        ["esm-apps", "livepatch"]
    ∧ (∀ s, s ∈ (computePlan none ["esm-apps", "livepatch"] ["livepatch"] (some demoStatus)).to_enable
        ↔ s ∈ ["esm-apps", "livepatch"] ∧ s ∉ collect_enabled_services (some demoStatus))
    ∧ (computePlan none ["esm-apps", "livepatch"] ["livepatch"] (some demoStatus)).to_disable
        = List.filter (fun s => decide (s ∈ collect_enabled_services (some demoStatus)))
            ["livepatch"]
    ∧ List.Sublist
        (computePlan none ["esm-apps", "livepatch"] ["livepatch"] (some demoStatus)).to_disable
        ["livepatch"]
    ∧ (∀ s, s ∈ (computePlan none ["esm-apps", "livepatch"] ["livepatch"] (some demoStatus)).to_disable
        ↔ s ∈ ["livepatch"] ∧ s ∈ collect_enabled_services (some demoStatus)) :=
  diff_engine_correct none ["esm-apps", "livepatch"] ["livepatch"] (some demoStatus)

/-- Claim C5: `attach_needed` holds exactly when the desired state
implies an attach (state `attached`, or a non-empty enable or disable
list) and the current snapshot is not attached. -/
theorem attach_inference (state : Option String) (E D : List String)
    (status : Option JVal) :
    (computePlan state E D status).attach_needed = true
      ↔ ((state = some "attached" ∨ E ≠ [] ∨ D ≠ [])
          ∧ status_attached status = false) := by
  cases h : status_attached status <;>
    simp [computePlan, h, List.isEmpty_iff, or_assoc]

/-- Witness for C5 at a concrete input: enable list non-empty, state
unset, unattached snapshot. -/
theorem attach_inference_witness :
    (computePlan none ["esm-apps"] [] none).attach_needed = true
      ↔ ((none = some "attached" ∨ ["esm-apps"] ≠ ([] : List String) ∨ ([] : List String) ≠ [])
          ∧ status_attached none = false) :=
  attach_inference none ["esm-apps"] [] none

/-- Claim C6: a computed plan never has `attach_needed` and
`detach_needed` both true. -/
theorem attach_detach_exclusive (state : Option String) (E D : List String)
    (status : Option JVal) :
    ((computePlan state E D status).attach_needed
      && (computePlan state E D status).detach_needed) = false := by
  cases h : status_attached status <;> simp [computePlan, h]

/-- Witness for C6 at a concrete input. -/
theorem attach_detach_exclusive_witness :
    ((computePlan (some "detached") [] [] (some demoStatus)).attach_needed
      && (computePlan (some "detached") [] [] (some demoStatus)).detach_needed) = false :=
  attach_detach_exclusive (some "detached") [] [] (some demoStatus)

/-- Claim C9: `to_enable` and `to_disable` of one plan are disjoint;
a name in both desired lists lands in `to_disable` when currently
enabled and in `to_enable` when currently disabled, never in both. -/
theorem enable_disable_disjoint (state : Option String) (E D : List String)
    (status : Option JVal) (s : String) :
    (¬(s ∈ (computePlan state E D status).to_enable
        ∧ s ∈ (computePlan state E D status).to_disable))
    ∧ (s ∈ E → s ∈ D →
        ((s ∈ collect_enabled_services status →
            s ∈ (computePlan state E D status).to_disable
            ∧ s ∉ (computePlan state E D status).to_enable)
         ∧ (s ∉ collect_enabled_services status →
            s ∈ (computePlan state E D status).to_enable
            ∧ s ∉ (computePlan state E D status).to_disable))) := by
  by_cases hc : s ∈ collect_enabled_services status <;>
    simp [computePlan, List.mem_filter, List.elem_iff, hc]
  exact fun h _ => h

/-- Witness for C9 at a concrete input: `livepatch` requested both
enabled and disabled while currently disabled. -/
theorem enable_disable_disjoint_witness :
    (¬("livepatch" ∈ (computePlan none ["livepatch"] ["livepatch"] (some demoStatus)).to_enable
        ∧ "livepatch" ∈ (computePlan none ["livepatch"] ["livepatch"] (some demoStatus)).to_disable))
    ∧ ("livepatch" ∈ ["livepatch"] → "livepatch" ∈ ["livepatch"] →
        (("livepatch" ∈ collect_enabled_services (some demoStatus) →
            "livepatch" ∈ (computePlan none ["livepatch"] ["livepatch"] (some demoStatus)).to_disable
            ∧ "livepatch" ∉ (computePlan none ["livepatch"] ["livepatch"] (some demoStatus)).to_enable)
         ∧ ("livepatch" ∉ collect_enabled_services (some demoStatus) →
            "livepatch" ∈ (computePlan none ["livepatch"] ["livepatch"] (some demoStatus)).to_enable
            ∧ "livepatch" ∉ (computePlan none ["livepatch"] ["livepatch"] (some demoStatus)).to_disable))) :=
  enable_disable_disjoint none ["livepatch"] ["livepatch"] (some demoStatus) "livepatch"

/-- Claim C10: whenever a service entry contains an `enabled` key of
any type, its value is interpreted by generic truthiness and the
`status`/`state` fields are never consulted: truthy non-booleans such
as the strings "disabled" and "no" normalize to enabled, falsy values
such as `0` and `""` to disabled, each against a contradicting textual
field. -/
theorem enabled_key_truthiness :
    (∀ (svc : List (String × JVal)) (v : JVal),
        dictGet svc "enabled" = some v → service_enabled svc = truthy v)
    ∧ service_enabled [("enabled", .str "disabled"), ("status", .str "disabled")] = true
    ∧ service_enabled [("enabled", .str "no"), ("status", .str "enabled")] = true
    ∧ service_enabled [("enabled", .num 0), ("status", .str "enabled")] = false
    ∧ service_enabled [("enabled", .str ""), ("state", .str "active")] = false := by
  refine ⟨?_, rfl, rfl, rfl, rfl⟩
  intro svc v h
  simp [service_enabled, h]

/-- Counterexample to C4 as stated: the entry
`{"enabled": "disabled", "status": "disabled"}` has no boolean
`enabled` field, so the claimed precedence falls through to the textual
`status` test and yields disabled; the code interprets the `enabled`
key by truthiness and yields enabled. -/
theorem enabled_normalization_refuted :
    service_enabled [("enabled", .str "disabled"), ("status", .str "disabled")] = true
    ∧ service_enabled_claim [("enabled", .str "disabled"), ("status", .str "disabled")] = false :=
  ⟨rfl, rfl⟩

/-- Claim C4 as amended: enabled-ness precedence keys on the presence
of the `enabled` field (interpreted by generic truthiness, whatever its
type) rather than on it being boolean; otherwise a textual `status`,
then a textual `state`, is compared case-insensitively against
{"enabled","active","on"}; otherwise disabled.  In particular
`status: "Active"` and `enabled: true` both normalize to enabled, and
an entry with none of the three fields normalizes to disabled. -/
theorem enabled_normalization_amended (svc : List (String × JVal)) :
    service_enabled svc = service_enabled_amended svc
    ∧ service_enabled [("name", .str "esm-apps"), ("status", .str "Active")] = true
    ∧ service_enabled [("name", .str "esm-apps"), ("enabled", .bool true)] = true
    ∧ service_enabled [("name", .str "esm-apps")] = false := by
  refine ⟨?_, rfl, rfl, rfl⟩
  unfold service_enabled service_enabled_amended
  cases h : dictGet svc "enabled" with
  | some v => simp [h]
  | none =>
    cases h2 : strField svc "status" with
    | some s => simp [h, h2]
    | none =>
      cases h3 : strField svc "state" with
      | some s => simp [h, h2, h3]
      | none => simp [h, h2, h3]

/-- Witness for the amended C4 at a concrete entry. -/
theorem enabled_normalization_amended_witness :
    service_enabled [("enabled", .str "disabled"), ("status", .str "disabled")]
        = service_enabled_amended [("enabled", .str "disabled"), ("status", .str "disabled")]
    ∧ service_enabled [("name", .str "esm-apps"), ("status", .str "Active")] = true
    ∧ service_enabled [("name", .str "esm-apps"), ("enabled", .bool true)] = true
    ∧ service_enabled [("name", .str "esm-apps")] = false :=
  enabled_normalization_amended [("enabled", .str "disabled"), ("status", .str "disabled")]

/-- Claim C2: in check mode the reconciler performs no Runner
invocation other than the initial status read (for every outcome, the
trace is at most the status command); when it returns a result, the
`changed` flag is true exactly when `attach_needed`, `detach_needed`,
`to_enable` or `to_disable` is non-empty, the predicted
`to_enable`/`to_disable` lists are carried exactly when non-empty, and
none of the four `*_result` fields is present. -/
theorem check_mode_pure (pro : String) (p : Params)
    (parse : String → Option JVal) (run : Runner) :
    List.Sublist (mainRun pro p true parse run).2 [statusCmd pro]
    ∧ (∀ (r : ResultRecord) (st : ExecOut),
        execute parse run (statusCmd pro) = .ok st →
        (mainRun pro p true parse run).1 = .ok r →
        (r.changed = true ↔
            ((computePlan p.state p.enabled p.disabled st.parsed).attach_needed = true
             ∨ (computePlan p.state p.enabled p.disabled st.parsed).detach_needed = true
             ∨ (computePlan p.state p.enabled p.disabled st.parsed).to_enable ≠ []
             ∨ (computePlan p.state p.enabled p.disabled st.parsed).to_disable ≠ []))
        ∧ ((computePlan p.state p.enabled p.disabled st.parsed).to_enable ≠ [] →
            r.enabled = some (computePlan p.state p.enabled p.disabled st.parsed).to_enable)
        ∧ ((computePlan p.state p.enabled p.disabled st.parsed).to_enable = [] →
            r.enabled = none)
        ∧ ((computePlan p.state p.enabled p.disabled st.parsed).to_disable ≠ [] →
            r.disabled = some (computePlan p.state p.enabled p.disabled st.parsed).to_disable)
        ∧ ((computePlan p.state p.enabled p.disabled st.parsed).to_disable = [] →
            r.disabled = none)
        ∧ r.attach_result = none ∧ r.detach_result = none
        ∧ r.enable_result = none ∧ r.disable_result = none) := by
  constructor
  · unfold mainRun
    split
    · exact List.nil_sublist _
    · split
      · exact List.nil_sublist _
      · split
        · simp
        · next st heq =>
          by_cases h3 : (computePlan p.state p.enabled p.disabled st.parsed).attach_needed = true
              ∧ tokenTruthy p.token = false
          · simp [h3]
          · simp [h3]
  · intro r st hex hr
    unfold mainRun at hr
    by_cases h1 : p.state = some "attached" ∧ p.token = none
    · rw [if_pos h1] at hr; exact absurd hr (by simp)
    · rw [if_neg h1] at hr
      by_cases h2 : p.state = some "detached" ∧ (p.enabled ≠ [] ∨ p.disabled ≠ [])
      · rw [if_pos h2] at hr; exact absurd hr (by simp)
      · rw [if_neg h2, hex] at hr
        by_cases h3 : (computePlan p.state p.enabled p.disabled st.parsed).attach_needed = true
            ∧ tokenTruthy p.token = false
        · simp only [if_pos h3] at hr; exact absurd hr (by simp)
        · simp only [if_neg h3, if_pos rfl] at hr
          have hrc : checkResult st.parsed
              (computePlan p.state p.enabled p.disabled st.parsed) = r := by
            simpa using hr
          subst hrc
          refine ⟨?_, ?_, ?_, ?_, ?_, rfl, rfl, rfl, rfl⟩
          · simp [checkResult, List.isEmpty_iff, or_assoc]
          · intro h
            simp [checkResult, List.isEmpty_iff, h]
          · intro h
            simp [checkResult, List.isEmpty_iff, h]
          · intro h
            simp [checkResult, List.isEmpty_iff, h]
          · intro h
            simp [checkResult, List.isEmpty_iff, h]

/-- A parse stand-in recognising the payload `"S"` as `demoStatus`. -/
def chkParse : String → Option JVal := fun s => if s = "S" then some demoStatus else none

/-- A runner whose status read returns the `"S"` payload and on which
every other command fails. -/
def chkRun : Runner := fun args => if args = statusCmd proPath then (0, "S", "") else (1, "", "")

/-- Desired state for the check-mode witness: enable `esm-apps` and
`livepatch`. -/
def pChk : Params :=
  { state := none, token := none, enabled := ["esm-apps", "livepatch"], disabled := [] }

/-- The status read's outcome on `chkRun`. -/
def stChk : ExecOut := ⟨some demoStatus, "S", ""⟩

/-- The record the check-mode exit produces on `chkRun` with `pChk`. -/
def rChk : ResultRecord :=
  checkResult (some demoStatus) (computePlan none ["esm-apps", "livepatch"] [] (some demoStatus))

/-- Witness for C2 at a concrete input: attached snapshot with
`esm-apps` enabled, desired enable `[esm-apps, livepatch]`, check mode. -/
theorem check_mode_pure_witness :
    (rChk.changed = true ↔
        ((computePlan pChk.state pChk.enabled pChk.disabled stChk.parsed).attach_needed = true
         ∨ (computePlan pChk.state pChk.enabled pChk.disabled stChk.parsed).detach_needed = true
         ∨ (computePlan pChk.state pChk.enabled pChk.disabled stChk.parsed).to_enable ≠ []
         ∨ (computePlan pChk.state pChk.enabled pChk.disabled stChk.parsed).to_disable ≠ []))
    ∧ ((computePlan pChk.state pChk.enabled pChk.disabled stChk.parsed).to_enable ≠ [] →
        rChk.enabled = some (computePlan pChk.state pChk.enabled pChk.disabled stChk.parsed).to_enable)
    ∧ ((computePlan pChk.state pChk.enabled pChk.disabled stChk.parsed).to_enable = [] →
        rChk.enabled = none)
    ∧ ((computePlan pChk.state pChk.enabled pChk.disabled stChk.parsed).to_disable ≠ [] →
        rChk.disabled = some (computePlan pChk.state pChk.enabled pChk.disabled stChk.parsed).to_disable)
    ∧ ((computePlan pChk.state pChk.enabled pChk.disabled stChk.parsed).to_disable = [] →
        rChk.disabled = none)
    ∧ rChk.attach_result = none ∧ rChk.detach_result = none
    ∧ rChk.enable_result = none ∧ rChk.disable_result = none :=
  (check_mode_pure proPath pChk chkParse chkRun).2 rChk stChk rfl rfl

/-- Counterexample to C3 as stated: with state unset, desired enable
`[esm-apps]`, no token and an unattached system, the run does fail with
the token validation error, but the invocation trace at that failure is
the status read — an external call was made before the failure. -/
theorem token_validation_refuted :
    mainRun proPath pNoToken false demoParse runUnattached
      = (.error (.validation "token is required to attach the system"), [statusCmd proPath])
    ∧ [statusCmd proPath] ≠ ([] : List (List String)) :=
  ⟨rfl, by simp⟩

/-- Claim C3 as amended: when an attach is implied but no token is
supplied, the run fails with a validation error, and no external call
other than the initial status read precedes that failure (none at all
when `state=attached` with the token absent, which the argument
validation rejects before anything runs). -/
theorem token_validation (pro : String) (p : Params) (checkMode : Bool)
    (parse : String → Option JVal) (run : Runner)
    (hnd : p.state ≠ some "detached")
    (himpl : p.state = some "attached" ∨ p.enabled ≠ [] ∨ p.disabled ≠ [])
    (htok : tokenTruthy p.token = false)
    (hok : ∃ st, execute parse run (statusCmd pro) = .ok st
        ∧ status_attached st.parsed = false) :
    (∃ msg, (mainRun pro p checkMode parse run).1 = .error (.validation msg))
    ∧ List.Sublist (mainRun pro p checkMode parse run).2 [statusCmd pro] := by
  obtain ⟨st, hex, hatt⟩ := hok
  by_cases h1 : p.state = some "attached" ∧ p.token = none
  · unfold mainRun
    rw [if_pos h1]
    exact ⟨⟨_, rfl⟩, List.nil_sublist _⟩
  · have h2 : ¬(p.state = some "detached" ∧ (p.enabled ≠ [] ∨ p.disabled ≠ [])) :=
      fun h => hnd h.1
    have hplan : (computePlan p.state p.enabled p.disabled st.parsed).attach_needed = true := by
      simp [computePlan, hatt, List.isEmpty_iff]
      tauto
    unfold mainRun
    rw [if_neg h1, if_neg h2]
    simp only [hex, hplan, htok]
    simp

/-- The status read's outcome on `runUnattached`. -/
def stUnattached : ExecOut := ⟨some (.obj [("attached", .bool false)]), "UNATTACHED", ""⟩

/-- Witness for the amended C3 at a concrete input. -/
theorem token_validation_witness :
    (∃ msg, (mainRun proPath pNoToken false demoParse runUnattached).1
        = .error (.validation msg))
    ∧ List.Sublist (mainRun proPath pNoToken false demoParse runUnattached).2
        [statusCmd proPath] :=
  token_validation proPath pNoToken false demoParse runUnattached
    (by simp [pNoToken]) (Or.inr (Or.inl (by simp [pNoToken]))) rfl
    ⟨stUnattached, rfl, rfl⟩

/-- Counterexample to C7 as stated: on an attached system with
`livepatch` requested, the failing enable invocation surfaces the
argument vector with the resolved binary path first, which is not
exactly `["enable", "--assume-yes", "--format=json", "livepatch"]`. -/
theorem enable_argv_refuted :
    (mainRun proPath pLivepatch false demoParse runAttachedFailing).1
      = .error (.execFail 1 "boom" "err"
          ["/usr/bin/pro", "enable", "--assume-yes", "--format=json", "livepatch"])
    ∧ ["/usr/bin/pro", "enable", "--assume-yes", "--format=json", "livepatch"]
        ≠ ["enable", "--assume-yes", "--format=json", "livepatch"] :=
  ⟨rfl, by decide⟩

/-- Claim C7 as amended: any external invocation that exits non-zero
aborts the run and surfaces the exit code, stdout, stderr and the exact
argument vector of the failing command; for a failing enable of
`livepatch` that vector is the resolved binary path followed by exactly
`["enable", "--assume-yes", "--format=json", "livepatch"]`. -/
theorem run_failure_surfaced (parse : String → Option JVal) (run : Runner)
    (args : List String) :
    (∀ (rc : Int) (out err : String), run args = (rc, out, err) → rc ≠ 0 →
        execute parse run args = .error (.execFail rc out err args))
    ∧ (mainRun proPath pLivepatch false demoParse runAttachedFailing).1
        = .error (.execFail 1 "boom" "err"
            (proPath :: ["enable", "--assume-yes", "--format=json", "livepatch"])) := by
  refine ⟨?_, rfl⟩
  intro rc out err hrun hrc
  simp [execute, hrun, hrc]

/-- Witness for C7 at a concrete failing invocation (the detach command
on `runAttachedFailing` exits 1). -/
theorem run_failure_surfaced_witness :
    execute demoParse runAttachedFailing (detachCmd proPath)
      = .error (.execFail 1 "boom" "err" (detachCmd proPath)) :=
  (run_failure_surfaced demoParse runAttachedFailing (detachCmd proPath)).1
    1 "boom" "err" rfl (by simp)

/-- Claim C8: for a successful invocation, empty stdout yields an
absent parsed result (not an error), and non-empty stdout that fails to
parse yields the wrapper `{"raw": out}` without failing the run. -/
theorem lenient_output_parsing (parse : String → Option JVal) (run : Runner)
    (args : List String) :
    ((run args).1 = 0 → (run args).2.1 = "" →
        execute parse run args = .ok ⟨none, (run args).2.1, (run args).2.2⟩)
    ∧ ((run args).1 = 0 → (run args).2.1 ≠ "" → parse ((run args).2.1) = none →
        execute parse run args
          = .ok ⟨some (.obj [("raw", .str ((run args).2.1))]),
              (run args).2.1, (run args).2.2⟩) := by
  constructor
  · intro h0 hout
    simp [execute, parseStdout, h0, hout]
  · intro h0 hout hp
    simp [execute, parseStdout, h0, hout, hp]

/-- A runner producing empty stdout for the detach command and
non-JSON stdout for the status command, both succeeding. -/
def rawRun : Runner := fun args =>
  if args = statusCmd proPath then (0, "not json", "") else (0, "", "")

/-- Witness for C8 at concrete invocations: empty stdout parses to an
absent result, non-JSON stdout to the raw wrapper. -/
theorem lenient_output_parsing_witness :
    execute demoParse rawRun (detachCmd proPath)
      = .ok ⟨none, (rawRun (detachCmd proPath)).2.1, (rawRun (detachCmd proPath)).2.2⟩
    ∧ execute demoParse rawRun (statusCmd proPath)
      = .ok ⟨some (.obj [("raw", .str ((rawRun (statusCmd proPath)).2.1))]),
          (rawRun (statusCmd proPath)).2.1, (rawRun (statusCmd proPath)).2.2⟩ :=
  ⟨(lenient_output_parsing demoParse rawRun (detachCmd proPath)).1 rfl rfl,
   (lenient_output_parsing demoParse rawRun (statusCmd proPath)).2 rfl (by decide) rfl⟩

end ProModule
